import Mathlib

/-!
Shallow embedding of the CRM service (Django/graphene application: `crm/models.py`,
`crm/schema.py`, `crm/filters.py`, `debug_mutations.py`).

Modelling conventions:
- `DecimalField(decimal_places=2)` values (product price, order total) are embedded as
  `Int` counts of hundredths ("cents"), so decimal arithmetic is exact: `999.99` is
  `99999`, `25.50` is `2550`.
- The database is a record of lists of rows plus auto-increment counters; SQL queries
  (`filter`, `get`, `exists`) become list operations.  Row ids are `Nat`.
- Python truthiness on optional GraphQL inputs (`if filter.get('price_gte'):`,
  `input.phone or ""`) is embedded by explicit `truthy*` helpers: `None` is falsy,
  `""` is falsy, `0` is falsy, `False` is falsy.
- `re` matching of the phone pattern `^\+?[\d\-\(\)\s]+$` is embedded as a decidable
  character-class match (ASCII reading of `\d` and `\s`).
- Timestamps (`order_date`, `created_at`) are opaque `Nat` values; a Python
  `datetime`/`date` object is always truthy, so their truthiness is `Option.isSome`.
- `transaction.atomic()` blocks whose bodies raise no uncaught exception commit; in the
  single-threaded embedding the pre-validated `objects.create` calls cannot fail, so
  the mutations are total functions from a database state to (payload, new state).
- The resolvers' `order_by` post-processing step is outside the embedding; all
  properties below concern the filtering stage that precedes it.
-/

namespace CRM

/-- A row of `crm.models.Customer` (name, unique email, optional phone stored as a
string, `""` meaning absent). -/
structure Customer where
  id : Nat
  name : String
  email : String
  phone : String
deriving DecidableEq, Repr

/-- A row of `crm.models.Product`; `price` is the decimal price in hundredths. -/
structure Product where
  id : Nat
  name : String
  price : Int
  stock : Nat
deriving DecidableEq, Repr

/-- A row of `crm.models.Order`; `productIds` is the many-to-many `products` relation,
`totalAmount` the stored decimal total in hundredths, `orderDate` an opaque instant. -/
structure Order where
  id : Nat
  customerId : Nat
  productIds : List Nat
  totalAmount : Int
  orderDate : Nat
deriving DecidableEq, Repr

/-- The relational store: the three tables plus auto-increment id counters. -/
structure DB where
  customers : List Customer
  products : List Product
  orders : List Order
  nextCustomerId : Nat
  nextOrderId : Nat
  nextProductId : Nat
deriving DecidableEq, Repr

/-- The empty database. -/
def DB.empty : DB := ⟨[], [], [], 1, 1, 1⟩

/-- `ErrorType` of `crm/schema.py`: a (field, message) pair. -/
structure ErrorType where
  field : String
  message : String
deriving DecidableEq, Repr

/-- `CustomerValidationError` of `crm/schema.py`: per-row bulk error with its row index. -/
structure CustomerValidationError where
  index : Nat
  errors : List ErrorType
deriving DecidableEq, Repr

/-- Python truthiness of an optional string argument (`None` and `""` are falsy). -/
def truthyStr : Option String → Bool
  | none => false
  | some s => !s.isEmpty

/-- Python truthiness of an optional numeric argument (`None` and `0` are falsy). -/
def truthyInt : Option Int → Bool
  | none => false
  | some n => n != 0

/-- Python truthiness of an optional boolean argument (`None` and `False` are falsy). -/
def truthyBool : Option Bool → Bool
  | none => false
  | some b => b

/-- ASCII reading of Python `\s` (space, tab, newline, carriage return, vertical tab,
form feed). -/
def isSpaceChar (c : Char) : Bool :=
  c == ' ' || c == '\t' || c == '\n' || c == '\x0d' || c == '\x0b' || c == '\x0c'

/-- One character of the class `[\d\-\(\)\s]` in the phone pattern. -/
def isPhoneBodyChar (c : Char) : Bool :=
  c.isDigit || c == '-' || c == '(' || c == ')' || isSpaceChar c

/-- Whether a string matches the anchored regular expression `^\+?[\d\-\(\)\s]+$`:
an optional leading `+` followed by one or more characters of the class. -/
def matchesPhoneRegex (s : String) : Bool :=
  match s.data with
  | [] => false
  | c :: rest =>
      if c == '+' then !rest.isEmpty && rest.all isPhoneBodyChar
      else (c :: rest).all isPhoneBodyChar

/-- `validate_phone` of `crm/schema.py` / `debug_mutations.py`: an empty (falsy) phone
passes outright; otherwise the string must match the pattern. -/
def validate_phone (phone : String) : Bool :=
  if phone.isEmpty then true
  else matchesPhoneRegex phone

/-- `validate_email_unique` of `crm/schema.py` / `debug_mutations.py`:
`not Customer.objects.filter(email=email).exists()` (no `exclude_id` is ever passed
by the mutations, so it is omitted). -/
def validate_email_unique (db : DB) (email : String) : Bool :=
  (db.customers.filter (fun c => c.email == email)).isEmpty

/-- `CustomerInput`: required name and email, optional phone. -/
structure CustomerInput where
  name : String
  email : String
  phone : Option String
deriving DecidableEq, Repr

/-- `ProductInput`: required name and decimal price (hundredths), optional stock. -/
structure ProductInput where
  name : String
  price : Int
  stock : Option Int
deriving DecidableEq, Repr

/-- `OrderInput`: required customer id and product id list, optional order date. -/
structure OrderInput where
  customer_id : Nat
  product_ids : List Nat
  order_date : Option Nat
deriving DecidableEq, Repr

/-- Payload of `CreateCustomer`. -/
structure CreateCustomerOutput where
  customer : Option Customer
  message : String
  errors : List ErrorType
deriving DecidableEq, Repr

/-- Payload of `BulkCreateCustomers`. -/
structure BulkCreateCustomersOutput where
  customers : List Customer
  errors : List CustomerValidationError
deriving DecidableEq, Repr

/-- Payload of `CreateProduct`. -/
structure CreateProductOutput where
  product : Option Product
  message : String
  errors : List ErrorType
deriving DecidableEq, Repr

/-- Payload of `CreateOrder`. -/
structure CreateOrderOutput where
  order : Option Order
  message : String
  errors : List ErrorType
deriving DecidableEq, Repr

/-- The validation errors `CreateCustomer.mutate` collects before writing. -/
def customerValidationErrors (db : DB) (input : CustomerInput) : List ErrorType :=
  (if !validate_email_unique db input.email then
    [⟨"email", "Email already exists"⟩]
  else []) ++
  (if truthyStr input.phone && !validate_phone (input.phone.getD "") then
    [⟨"phone", "Phone number must be in format: +1234567890 or 123-456-7890"⟩]
  else [])

/-- `Customer.objects.create(...)` as called by the customer mutations: stores
`input.phone or ""` and bumps the id counter. -/
def customerCreateRow (db : DB) (input : CustomerInput) : Customer × DB :=
  let c : Customer :=
    ⟨db.nextCustomerId, input.name, input.email,
      match input.phone with
      | none => ""
      | some s => s⟩
  (c, { db with customers := db.customers ++ [c], nextCustomerId := db.nextCustomerId + 1 })

/-- `CreateCustomer.mutate`: validate email uniqueness and phone format, aggregate the
field errors, and only write when none occurred. -/
def createCustomer (db : DB) (input : CustomerInput) : CreateCustomerOutput × DB :=
  let errors := customerValidationErrors db input
  if errors.isEmpty then
    let (c, db') := customerCreateRow db input
    (⟨some c, "Customer \x27" ++ c.name ++ "\x27 created successfully", []⟩, db')
  else
    (⟨none, "Validation failed", errors⟩, db)

/-- `CreateProduct.mutate`: positive price and non-negative stock, aggregated; on
success stores `stock=input.stock or 0`. -/
def createProduct (db : DB) (input : ProductInput) : CreateProductOutput × DB :=
  let errors : List ErrorType :=
    (if input.price ≤ 0 then [⟨"price", "Price must be positive"⟩] else []) ++
    (match input.stock with
     | some n => if n < 0 then [⟨"stock", "Stock cannot be negative"⟩] else []
     | none => [])
  if errors.isEmpty then
    let p : Product :=
      ⟨db.nextProductId, input.name, input.price, (input.stock.getD 0).toNat⟩
    (⟨some p, "Product \x27" ++ p.name ++ "\x27 created successfully", []⟩,
      { db with products := db.products ++ [p], nextProductId := db.nextProductId + 1 })
  else
    (⟨none, "Validation failed", errors⟩, db)

/-- `BulkCreateCustomers.mutate` loop body, processing rows from index `idx` onward:
a row with validation errors is reported (with its index) and skipped, a clean row is
written immediately; processing always continues with the next row. -/
def bulkCreateCustomersAux (db : DB) (idx : Nat) :
    List CustomerInput → List Customer × List CustomerValidationError × DB
  | [] => ([], [], db)
  | input :: rest =>
      if (customerValidationErrors db input).isEmpty then
        let c := (customerCreateRow db input).1
        let r := bulkCreateCustomersAux (customerCreateRow db input).2 (idx + 1) rest
        (c :: r.1, r.2.1, r.2.2)
      else
        let r := bulkCreateCustomersAux db (idx + 1) rest
        (r.1, ⟨idx, customerValidationErrors db input⟩ :: r.2.1, r.2.2)

/-- `BulkCreateCustomers.mutate`: enumerate the input rows from index 0.  The enclosing
`transaction.atomic()` commits because the loop lets no exception escape (pre-validated
creates cannot fail in the single-threaded embedding). -/
def bulkCreateCustomers (db : DB) (inputs : List CustomerInput) :
    BulkCreateCustomersOutput × DB :=
  let (cs, es, db') := bulkCreateCustomersAux db 0 inputs
  (⟨cs, es⟩, db')

/-- `Order.calculate_total_amount` of `crm/models.py`: the sum of the associated
products' decimal prices. -/
def calculate_total_amount (products : List Product) : Int :=
  (products.map Product.price).sum

/-- `Product.objects.filter(id__in=product_ids)`: each stored product whose id occurs
in the request list, each table row at most once. -/
def orderMatchedProducts (db : DB) (ids : List Nat) : List Product :=
  db.products.filter (fun p => ids.contains p.id)

/-- `set(product_ids) - set(str(p.id) for p in products)`: the distinct requested ids
that match no stored product. -/
def invalidIds (db : DB) (ids : List Nat) : List Nat :=
  ids.dedup.filter (fun i => !(db.products.any (fun p => p.id == i)))

/-- Decimal rendering of a hundredths count, as `str` on a two-place `Decimal`. -/
def decimalString (cents : Int) : String :=
  let a := cents.natAbs
  (if cents < 0 then "-" else "") ++ toString (a / 100) ++ "." ++
    (if a % 100 < 10 then "0" else "") ++ toString (a % 100)

/-- The itemized message of the invalid-product-ids error. -/
def invalidIdsMessage (ids : List Nat) : String :=
  "Invalid product IDs: " ++ String.intercalate ", " (ids.map toString)

/-- `CreateOrder.mutate`: a missing customer short-circuits; then the empty-list and
invalid-id checks are aggregated; on success the order row is written, the products
attached, and `calculate_total_amount` persisted, all in one transaction.  `now` is
the ambient `timezone.now()` used when no order date is given (a supplied `datetime`
is always truthy). -/
def createOrder (db : DB) (input : OrderInput) (now : Nat) : CreateOrderOutput × DB :=
  match db.customers.find? (fun c => c.id == input.customer_id) with
  | none =>
      (⟨none, "Validation failed", [⟨"customer_id", "Invalid customer ID"⟩]⟩, db)
  | some customer =>
      let errors : List ErrorType :=
        (if input.product_ids.isEmpty then
          [⟨"product_ids", "At least one product must be selected"⟩]
        else []) ++
        (let products := orderMatchedProducts db input.product_ids
         if products.length ≠ input.product_ids.length then
          [⟨"product_ids", invalidIdsMessage (invalidIds db input.product_ids)⟩]
         else [])
      if errors.isEmpty then
        let products := orderMatchedProducts db input.product_ids
        let total := calculate_total_amount products
        let o : Order :=
          ⟨db.nextOrderId, customer.id, products.map Product.id, total,
            input.order_date.getD now⟩
        (⟨some o, "Order created successfully with total amount $" ++ decimalString total,
          []⟩,
          { db with orders := db.orders ++ [o], nextOrderId := db.nextOrderId + 1 })
      else
        (⟨none, "Validation failed", errors⟩, db)

/-- `startswith` on character lists. -/
def startsWithList : List Char → List Char → Bool
  | [], _ => true
  | _ :: _, [] => false
  | a :: as, b :: bs => a == b && startsWithList as bs

/-- Substring occurrence on character lists. -/
def containsSub (pat : List Char) : List Char → Bool
  | [] => pat.isEmpty
  | c :: rest => startsWithList pat (c :: rest) || containsSub pat rest

/-- Case-insensitive partial match: SQL `icontains` of django's `field__icontains`. -/
def icontains (hay pat : String) : Bool :=
  containsSub (pat.data.map Char.toLower) (hay.data.map Char.toLower)

/-- Literal prefix match: SQL lookup of django's `field__startswith`. -/
def startsWithStr (hay pat : String) : Bool :=
  startsWithList pat.data hay.data

/-- `ProductFilter.filter_low_stock` of `crm/filters.py`: constrain to `stock < 10`
only when the submitted flag value is truthy. -/
def filter_low_stock (ps : List Product) (value : Bool) : List Product :=
  if value then ps.filter (fun p => p.stock < 10) else ps

/-- `ProductFilterInput` of `crm/schema.py` (numeric thresholds in hundredths). -/
structure ProductFilterInput where
  name_icontains : Option String := none
  price_gte : Option Int := none
  price_lte : Option Int := none
  stock_gte : Option Int := none
  stock_lte : Option Int := none
  low_stock : Option Bool := none
deriving DecidableEq, Repr

/-- `CustomerFilterInput` of `crm/schema.py` (dates as opaque `Nat`). -/
structure CustomerFilterInput where
  name_icontains : Option String := none
  email_icontains : Option String := none
  created_at_gte : Option Nat := none
  created_at_lte : Option Nat := none
  phone_pattern : Option String := none
deriving DecidableEq, Repr

/-- `OrderFilterInput` of `crm/schema.py` (amounts in hundredths, dates opaque). -/
structure OrderFilterInput where
  total_amount_gte : Option Int := none
  total_amount_lte : Option Int := none
  order_date_gte : Option Nat := none
  order_date_lte : Option Nat := none
  customer_name : Option String := none
  product_name : Option String := none
  product_id : Option Int := none
deriving DecidableEq, Repr

/-- `Query.resolve_products` (same body as `resolve_filtered_products`): each
criterion is applied only when `filter.get(...)` is truthy; a customer row needs
`created_at` here, but product criteria touch only the product row. -/
def resolve_products (ps : List Product) (flt : Option ProductFilterInput) :
    List Product :=
  match flt with
  | none => ps
  | some f =>
      let q := ps
      let q := if truthyStr f.name_icontains then
          q.filter (fun p => icontains p.name (f.name_icontains.getD "")) else q
      let q := if truthyInt f.price_gte then
          q.filter (fun p => f.price_gte.getD 0 ≤ p.price) else q
      let q := if truthyInt f.price_lte then
          q.filter (fun p => p.price ≤ f.price_lte.getD 0) else q
      let q := if truthyInt f.stock_gte then
          q.filter (fun p => f.stock_gte.getD 0 ≤ (p.stock : Int)) else q
      let q := if truthyInt f.stock_lte then
          q.filter (fun p => (p.stock : Int) ≤ f.stock_lte.getD 0) else q
      let q := if truthyBool f.low_stock then
          q.filter (fun p => p.stock < 10) else q
      q

/-- The customer rows carry a `created_at` for the date criteria of the customer
resolver; it lives beside the row in the embedding. -/
structure CustomerRow where
  customer : Customer
  created_at : Nat
deriving DecidableEq, Repr

/-- `Query.resolve_customers` (same body as `resolve_filtered_customers`): truthiness
gates each criterion; a present date is always truthy. -/
def resolve_customers (cs : List CustomerRow) (flt : Option CustomerFilterInput) :
    List CustomerRow :=
  match flt with
  | none => cs
  | some f =>
      let q := cs
      let q := if truthyStr f.name_icontains then
          q.filter (fun c => icontains c.customer.name (f.name_icontains.getD "")) else q
      let q := if truthyStr f.email_icontains then
          q.filter (fun c => icontains c.customer.email (f.email_icontains.getD "")) else q
      let q := if f.created_at_gte.isSome then
          q.filter (fun c => f.created_at_gte.getD 0 ≤ c.created_at) else q
      let q := if f.created_at_lte.isSome then
          q.filter (fun c => c.created_at ≤ f.created_at_lte.getD 0) else q
      let q := if truthyStr f.phone_pattern then
          q.filter (fun c => startsWithStr c.customer.phone (f.phone_pattern.getD "")) else q
      q

/-- `Query.resolve_filtered_orders`: amount and date ranges plus the
`customer__name__icontains` join; the product-related criteria are left unapplied in
the source (commented out), so the resolver ignores them. -/
def resolve_filtered_orders (customers : List Customer) (os : List Order)
    (flt : Option OrderFilterInput) : List Order :=
  match flt with
  | none => os
  | some f =>
      let q := os
      let q := if truthyInt f.total_amount_gte then
          q.filter (fun o => f.total_amount_gte.getD 0 ≤ o.totalAmount) else q
      let q := if truthyInt f.total_amount_lte then
          q.filter (fun o => o.totalAmount ≤ f.total_amount_lte.getD 0) else q
      let q := if f.order_date_gte.isSome then
          q.filter (fun o => f.order_date_gte.getD 0 ≤ o.orderDate) else q
      let q := if f.order_date_lte.isSome then
          q.filter (fun o => o.orderDate ≤ f.order_date_lte.getD 0) else q
      let q := if truthyStr f.customer_name then
          q.filter (fun o =>
            match customers.find? (fun c => c.id == o.customerId) with
            | some c => icontains c.name (f.customer_name.getD "")
            | none => false) else q
      q

/-- Specification-side reading of a product criteria record: the product satisfies
every criterion that is present, each taken at face value (`stock_lte = some v`
demands `stock ≤ v`, a `low_stock` flag demands the low-stock status equal the flag). -/
def satisfiesAllCriteria (f : ProductFilterInput) (p : Product) : Bool :=
  (match f.name_icontains with | none => true | some s => icontains p.name s) &&
  (match f.price_gte with | none => true | some v => v ≤ p.price) &&
  (match f.price_lte with | none => true | some v => p.price ≤ v) &&
  (match f.stock_gte with | none => true | some v => v ≤ (p.stock : Int)) &&
  (match f.stock_lte with | none => true | some v => (p.stock : Int) ≤ v) &&
  (match f.low_stock with | none => true | some b => decide (p.stock < 10) == b)

/-- The conjunction of the product criteria the resolver actually applies: every
criterion whose submitted value is truthy. -/
def appliesTruthyProduct (f : ProductFilterInput) (p : Product) : Bool :=
  (!truthyStr f.name_icontains || icontains p.name (f.name_icontains.getD "")) &&
  (!truthyInt f.price_gte || decide (f.price_gte.getD 0 ≤ p.price)) &&
  (!truthyInt f.price_lte || decide (p.price ≤ f.price_lte.getD 0)) &&
  (!truthyInt f.stock_gte || decide (f.stock_gte.getD 0 ≤ (p.stock : Int))) &&
  (!truthyInt f.stock_lte || decide ((p.stock : Int) ≤ f.stock_lte.getD 0)) &&
  (!truthyBool f.low_stock || decide (p.stock < 10))

/-- The conjunction of the customer criteria the resolver actually applies. -/
def appliesTruthyCustomer (f : CustomerFilterInput) (c : CustomerRow) : Bool :=
  (!truthyStr f.name_icontains || icontains c.customer.name (f.name_icontains.getD "")) &&
  (!truthyStr f.email_icontains || icontains c.customer.email (f.email_icontains.getD "")) &&
  (!f.created_at_gte.isSome || decide (f.created_at_gte.getD 0 ≤ c.created_at)) &&
  (!f.created_at_lte.isSome || decide (c.created_at ≤ f.created_at_lte.getD 0)) &&
  (!truthyStr f.phone_pattern || startsWithStr c.customer.phone (f.phone_pattern.getD ""))

/-- The conjunction of the order criteria the resolver actually applies. -/
def appliesTruthyOrder (customers : List Customer) (f : OrderFilterInput) (o : Order) :
    Bool :=
  (!truthyInt f.total_amount_gte || decide (f.total_amount_gte.getD 0 ≤ o.totalAmount)) &&
  (!truthyInt f.total_amount_lte || decide (o.totalAmount ≤ f.total_amount_lte.getD 0)) &&
  (!f.order_date_gte.isSome || decide (f.order_date_gte.getD 0 ≤ o.orderDate)) &&
  (!f.order_date_lte.isSome || decide (o.orderDate ≤ f.order_date_lte.getD 0)) &&
  (!truthyStr f.customer_name ||
    (match customers.find? (fun c => c.id == o.customerId) with
     | some c => icontains c.name (f.customer_name.getD "")
     | none => false))

/-- The rows matched by `id__in` are counted by the distinct requested ids that exist,
provided the product table has no duplicate ids. -/
theorem orderMatchedProducts_length (db : DB) (ids : List Nat)
    (hP : (db.products.map Product.id).Nodup) :
    (orderMatchedProducts db ids).length =
      (ids.dedup.filter (fun i => db.products.any (fun p => p.id == i))).length := by
  have h1 : (orderMatchedProducts db ids).length =
      ((db.products.map Product.id).filter (fun i => ids.contains i)).length := by
    rw [orderMatchedProducts, List.filter_map, List.length_map]
    rfl
  have hn1 : ((db.products.map Product.id).filter (fun i => ids.contains i)).Nodup :=
    hP.filter _
  have hn2 : (ids.dedup.filter (fun i => db.products.any (fun p => p.id == i))).Nodup :=
    (List.nodup_dedup ids).filter _
  have hfin : ((db.products.map Product.id).filter (fun i => ids.contains i)).toFinset =
      (ids.dedup.filter (fun i => db.products.any (fun p => p.id == i))).toFinset := by
    ext x
    simp only [List.mem_toFinset, List.mem_filter, List.mem_map, List.mem_dedup,
      List.any_eq_true, List.elem_iff]
    constructor
    · rintro ⟨⟨p, hp, rfl⟩, hx⟩
      refine ⟨by simpa using hx, p, hp, by simp⟩
    · rintro ⟨hx, p, hp, hpx⟩
      exact ⟨⟨p, hp, by simpa using hpx⟩, by simpa using hx⟩
  rw [h1, ← List.toFinset_card_of_nodup hn1, hfin, List.toFinset_card_of_nodup hn2]

/-- When every requested id exists, the matched-row count is the number of distinct
requested ids. -/
theorem orderMatchedProducts_length_of_all (db : DB) (ids : List Nat)
    (hP : (db.products.map Product.id).Nodup)
    (hall : ∀ i ∈ ids, db.products.any (fun p => p.id == i) = true) :
    (orderMatchedProducts db ids).length = ids.dedup.length := by
  rw [orderMatchedProducts_length db ids hP,
    List.filter_eq_self.mpr (fun i hi => hall i (List.mem_dedup.mp hi))]

/-- When some requested id exists nowhere in the product table, fewer rows match than
ids were requested. -/
theorem orderMatchedProducts_length_lt_of_missing (db : DB) (ids : List Nat)
    (hP : (db.products.map Product.id).Nodup)
    (hmiss : ∃ i ∈ ids, db.products.any (fun p => p.id == i) = false) :
    (orderMatchedProducts db ids).length < ids.length := by
  rw [orderMatchedProducts_length db ids hP]
  obtain ⟨i, hi, hfalse⟩ := hmiss
  have h1 : (ids.dedup.filter (fun i => db.products.any (fun p => p.id == i))).length <
      ids.dedup.length :=
    List.length_filter_lt_length_iff_exists.mpr
      ⟨i, List.mem_dedup.mpr hi, by simp [hfalse]⟩
  exact lt_of_lt_of_le h1 (List.dedup_sublist ids).length_le

/-- A list with a duplicate strictly shrinks under deduplication. -/
theorem dedup_length_lt_of_dup (ids : List Nat) (h : ¬ ids.Nodup) :
    ids.dedup.length < ids.length := by
  rcases ((List.dedup_sublist ids).length_le).lt_or_eq with hlt | heq
  · exact hlt
  · exact absurd (((List.dedup_sublist ids).eq_of_length heq) ▸ List.nodup_dedup ids) h

/-- C1: a successful CreateOrder call against an existing customer and existing,
pairwise-distinct product ids persists, synchronously in the same operation, a
`total_amount` equal to the exact decimal sum of the attached products' prices. -/
theorem createOrder_total_amount_exact (db : DB) (input : OrderInput) (now : Nat)
    (cust : Customer)
    (hfind : db.customers.find? (fun c => c.id == input.customer_id) = some cust)
    (hP : (db.products.map Product.id).Nodup)
    (hne : input.product_ids ≠ [])
    (hnd : input.product_ids.Nodup)
    (hall : ∀ i ∈ input.product_ids, db.products.any (fun p => p.id == i) = true) :
    ∃ o : Order,
      (createOrder db input now).1.order = some o ∧
      o.totalAmount = calculate_total_amount (orderMatchedProducts db input.product_ids) ∧
      o.totalAmount =
        ((db.products.filter (fun p => input.product_ids.contains p.id)).map
          Product.price).sum ∧
      (createOrder db input now).2.orders = db.orders ++ [o] ∧
      (createOrder db input now).1.errors = [] := by
  have hlen : (orderMatchedProducts db input.product_ids).length =
      input.product_ids.length := by
    rw [orderMatchedProducts_length_of_all db _ hP hall, List.dedup_eq_self.mpr hnd]
  have hlen' : (db.products.filter (fun p => decide (p.id ∈ input.product_ids))).length =
      input.product_ids.length := by
    simpa [orderMatchedProducts] using hlen
  simp only [createOrder, hfind]
  simp [List.isEmpty_iff, hne, hlen', calculate_total_amount, orderMatchedProducts]

/-- Witness for C1: with products priced 999.99 and 25.50 (99999 and 2550 hundredths)
attached to one order, the persisted total is exactly 1025.49 (102549 hundredths). -/
theorem createOrder_total_amount_exact_witness :
    (List.find? (fun c => c.id == (1 : Nat))
        (DB.mk [⟨1, "Alice", "alice@example.com", ""⟩]
          [⟨1, "Laptop", 99999, 5⟩, ⟨2, "Mouse", 2550, 3⟩] [] 2 1 3).customers =
      some ⟨1, "Alice", "alice@example.com", ""⟩) ∧
    (∃ o : Order,
      (createOrder
        (DB.mk [⟨1, "Alice", "alice@example.com", ""⟩]
          [⟨1, "Laptop", 99999, 5⟩, ⟨2, "Mouse", 2550, 3⟩] [] 2 1 3)
        ⟨1, [1, 2], none⟩ 7).1.order = some o ∧
      o.totalAmount = calculate_total_amount
        (orderMatchedProducts
          (DB.mk [⟨1, "Alice", "alice@example.com", ""⟩]
            [⟨1, "Laptop", 99999, 5⟩, ⟨2, "Mouse", 2550, 3⟩] [] 2 1 3) [1, 2]) ∧
      o.totalAmount =
        (((DB.mk [⟨1, "Alice", "alice@example.com", ""⟩]
            [⟨1, "Laptop", 99999, 5⟩, ⟨2, "Mouse", 2550, 3⟩] [] 2 1 3).products.filter
          (fun p => [1, 2].contains p.id)).map Product.price).sum ∧
      (createOrder
        (DB.mk [⟨1, "Alice", "alice@example.com", ""⟩]
          [⟨1, "Laptop", 99999, 5⟩, ⟨2, "Mouse", 2550, 3⟩] [] 2 1 3)
        ⟨1, [1, 2], none⟩ 7).2.orders = [] ++ [o] ∧
      (createOrder
        (DB.mk [⟨1, "Alice", "alice@example.com", ""⟩]
          [⟨1, "Laptop", 99999, 5⟩, ⟨2, "Mouse", 2550, 3⟩] [] 2 1 3)
        ⟨1, [1, 2], none⟩ 7).1.errors = []) ∧
    ((createOrder
        (DB.mk [⟨1, "Alice", "alice@example.com", ""⟩]
          [⟨1, "Laptop", 99999, 5⟩, ⟨2, "Mouse", 2550, 3⟩] [] 2 1 3)
        ⟨1, [1, 2], none⟩ 7).1.order.map Order.totalAmount = some 102549) :=
  ⟨by decide,
    createOrder_total_amount_exact
      (DB.mk [⟨1, "Alice", "alice@example.com", ""⟩]
        [⟨1, "Laptop", 99999, 5⟩, ⟨2, "Mouse", 2550, 3⟩] [] 2 1 3)
      ⟨1, [1, 2], none⟩ 7 ⟨1, "Alice", "alice@example.com", ""⟩
      (by decide) (by decide) (by decide) (by decide) (by decide),
    by decide⟩

/-- C5: an order referencing an existing customer but at least one non-existent
product id is rejected with a `product_ids` error itemizing exactly the missing ids,
returns no order and writes nothing; a non-existent customer id short-circuits with
only the `customer_id` error. -/
theorem createOrder_invalid_product_ids (db : DB) (input : OrderInput) (now : Nat)
    (cust : Customer)
    (hfind : db.customers.find? (fun c => c.id == input.customer_id) = some cust)
    (hP : (db.products.map Product.id).Nodup)
    (hmiss : ∃ i ∈ input.product_ids, db.products.any (fun p => p.id == i) = false) :
    (createOrder db input now).1.order = none ∧
    (createOrder db input now).2 = db ∧
    ⟨"product_ids", invalidIdsMessage (invalidIds db input.product_ids)⟩ ∈
      (createOrder db input now).1.errors ∧
    (∀ i, i ∈ invalidIds db input.product_ids ↔
      i ∈ input.product_ids ∧ db.products.any (fun p => p.id == i) = false) ∧
    (∀ (db2 : DB) (input2 : OrderInput) (now2 : Nat),
      db2.customers.find? (fun c => c.id == input2.customer_id) = none →
      (createOrder db2 input2 now2).1 =
        ⟨none, "Validation failed", [⟨"customer_id", "Invalid customer ID"⟩]⟩ ∧
      (createOrder db2 input2 now2).2 = db2) := by
  have hne0 : input.product_ids ≠ [] := by
    obtain ⟨i, hi, _⟩ := hmiss
    exact fun h => by simp [h] at hi
  have hlt := orderMatchedProducts_length_lt_of_missing db input.product_ids hP hmiss
  have hne' : (db.products.filter (fun p => decide (p.id ∈ input.product_ids))).length ≠
      input.product_ids.length := by
    have : (orderMatchedProducts db input.product_ids).length ≠
        input.product_ids.length := Nat.ne_of_lt hlt
    simpa [orderMatchedProducts] using this
  have hq : (orderMatchedProducts db input.product_ids).length ≠
      input.product_ids.length := Nat.ne_of_lt hlt
  refine ⟨?_, ?_, ?_, ?_, ?_⟩
  · simp only [createOrder, hfind]
    simp [List.isEmpty_iff, hne0, hq, hne']
  · simp only [createOrder, hfind]
    simp [List.isEmpty_iff, hne0, hq, hne']
  · simp only [createOrder, hfind]
    simp [List.isEmpty_iff, hne0, hq, hne']
  · intro i
    simp [invalidIds, List.mem_filter, List.mem_dedup]
  · intro db2 input2 now2 h2
    constructor
    · simp only [createOrder, h2]
    · simp only [createOrder, h2]

/-- C9: an order whose product id list repeats an existing product is rejected
(matched-row count differs from the raw list length) with a `product_ids` error whose
itemized invalid-id list is empty, and no order is created. -/
theorem createOrder_duplicate_ids_rejected (db : DB) (input : OrderInput) (now : Nat)
    (cust : Customer)
    (hfind : db.customers.find? (fun c => c.id == input.customer_id) = some cust)
    (hP : (db.products.map Product.id).Nodup)
    (hne : input.product_ids ≠ [])
    (hall : ∀ i ∈ input.product_ids, db.products.any (fun p => p.id == i) = true)
    (hdup : ¬ input.product_ids.Nodup) :
    (createOrder db input now).1.order = none ∧
    invalidIds db input.product_ids = [] ∧
    (createOrder db input now).1.errors = [⟨"product_ids", invalidIdsMessage []⟩] ∧
    (createOrder db input now).2 = db := by
  have h1 := orderMatchedProducts_length_of_all db input.product_ids hP hall
  have h2 := dedup_length_lt_of_dup input.product_ids hdup
  have hne' : (db.products.filter (fun p => decide (p.id ∈ input.product_ids))).length ≠
      input.product_ids.length := by
    have h3 : (orderMatchedProducts db input.product_ids).length ≠
        input.product_ids.length := by omega
    simpa [orderMatchedProducts] using h3
  have hinv : invalidIds db input.product_ids = [] := by
    refine List.filter_eq_nil_iff.mpr ?_
    intro i hi
    simp [hall i (List.mem_dedup.mp hi)]
  have hq : (orderMatchedProducts db input.product_ids).length ≠
      input.product_ids.length := by omega
  refine ⟨?_, hinv, ?_, ?_⟩
  · simp only [createOrder, hfind]
    simp [List.isEmpty_iff, hne, hq, hne']
  · simp only [createOrder, hfind]
    simp [List.isEmpty_iff, hne, hq, hne', hinv]
  · simp only [createOrder, hfind]
    simp [List.isEmpty_iff, hne, hq, hne']

/-- A concrete store used to instantiate the order-mutation properties: one customer
(id 1) and two products (ids 1 and 2, priced 999.99 and 25.50). -/
def sampleDB : DB :=
  ⟨[⟨1, "Alice", "alice@example.com", ""⟩],
    [⟨1, "Laptop", 99999, 5⟩, ⟨2, "Mouse", 2550, 3⟩], [], 2, 1, 3⟩

/-- Witness for C5: requesting product ids {1, 2, 999} where 999 does not exist yields
a `product_ids` error naming exactly `999`, and no order. -/
theorem createOrder_invalid_product_ids_witness :
    (sampleDB.customers.find? (fun c => c.id == (1 : Nat)) =
      some ⟨1, "Alice", "alice@example.com", ""⟩) ∧
    (∃ i ∈ [1, 2, 999], (sampleDB.products.any fun p => p.id == i) = false) ∧
    ((createOrder sampleDB ⟨1, [1, 2, 999], none⟩ 7).1.order = none ∧
      (createOrder sampleDB ⟨1, [1, 2, 999], none⟩ 7).2 = sampleDB ∧
      ⟨"product_ids", invalidIdsMessage (invalidIds sampleDB [1, 2, 999])⟩ ∈
        (createOrder sampleDB ⟨1, [1, 2, 999], none⟩ 7).1.errors) ∧
    invalidIds sampleDB [1, 2, 999] = [999] ∧
    invalidIdsMessage [999] = "Invalid product IDs: 999" :=
  ⟨by decide, ⟨999, by decide, by decide⟩,
    (fun h => ⟨h.1, h.2.1, h.2.2.1⟩)
      (createOrder_invalid_product_ids sampleDB ⟨1, [1, 2, 999], none⟩ 7
        ⟨1, "Alice", "alice@example.com", ""⟩ (by decide) (by decide)
        ⟨999, by decide, by decide⟩),
    by decide, by decide⟩

/-- Witness for C9: requesting [1, 1, 2] where both 1 and 2 exist yields a
`product_ids` error with an empty itemization and no order. -/
theorem createOrder_duplicate_ids_rejected_witness :
    ¬ ([1, 1, 2] : List Nat).Nodup ∧
    ((createOrder sampleDB ⟨1, [1, 1, 2], none⟩ 7).1.order = none ∧
      invalidIds sampleDB [1, 1, 2] = [] ∧
      (createOrder sampleDB ⟨1, [1, 1, 2], none⟩ 7).1.errors =
        [⟨"product_ids", invalidIdsMessage []⟩] ∧
      (createOrder sampleDB ⟨1, [1, 1, 2], none⟩ 7).2 = sampleDB) ∧
    invalidIdsMessage [] = "Invalid product IDs: " :=
  ⟨by decide,
    createOrder_duplicate_ids_rejected sampleDB ⟨1, [1, 1, 2], none⟩ 7
      ⟨1, "Alice", "alice@example.com", ""⟩ (by decide) (by decide) (by decide)
      (by decide) (by decide),
    by decide⟩

/-- C2: starting from a state with no customer holding the given email, running
CreateCustomer twice with that email (and otherwise valid input) succeeds once —
creating and returning the customer with a success message — and fails once with a
field error on `email` reporting the duplicate, creating no second customer. -/
theorem createCustomer_duplicate_email (db : DB) (input : CustomerInput)
    (hemail : validate_email_unique db input.email = true)
    (hphone : truthyStr input.phone = true → validate_phone (input.phone.getD "") = true) :
    ∃ c : Customer,
      (createCustomer db input).1.customer = some c ∧
      (createCustomer db input).1.message =
        "Customer \x27" ++ input.name ++ "\x27 created successfully" ∧
      (createCustomer db input).1.errors = [] ∧
      c.email = input.email ∧
      (createCustomer db input).2.customers = db.customers ++ [c] ∧
      (createCustomer (createCustomer db input).2 input).1.customer = none ∧
      (createCustomer (createCustomer db input).2 input).1.errors =
        [⟨"email", "Email already exists"⟩] ∧
      (createCustomer (createCustomer db input).2 input).2 = (createCustomer db input).2 := by
  have herr : customerValidationErrors db input = [] := by
    cases htr : truthyStr input.phone
    · simp [customerValidationErrors, hemail, htr]
    · simp [customerValidationErrors, hemail, htr, hphone htr]
  have huniq : validate_email_unique (createCustomer db input).2 input.email = false := by
    simp only [createCustomer, herr]
    simp [validate_email_unique, customerCreateRow, List.filter_append, List.isEmpty_iff]
  have herr2 : customerValidationErrors (createCustomer db input).2 input =
      [⟨"email", "Email already exists"⟩] := by
    cases htr : truthyStr input.phone
    · simp [customerValidationErrors, huniq, htr]
    · simp [customerValidationErrors, huniq, htr, hphone htr]
  refine ⟨(customerCreateRow db input).1, ?_, ?_, ?_, ?_, ?_, ?_, ?_, ?_⟩
  · simp only [createCustomer, herr]; simp
  · simp only [createCustomer, herr]; simp [customerCreateRow]
  · simp only [createCustomer, herr]; simp
  · simp [customerCreateRow]
  · simp only [createCustomer, herr]; simp [customerCreateRow]
  · rw [createCustomer, herr2]; simp
  · rw [createCustomer, herr2]; simp
  · rw [createCustomer, herr2]; simp

/-- C4: a non-positive price yields the `price` validation error with no product and
no write; a positive price with absent or non-negative stock yields no validation
error at all (the product is created). -/
theorem createProduct_price_validation (db : DB) (input : ProductInput) :
    (input.price ≤ 0 →
      (createProduct db input).1.product = none ∧
      ⟨"price", "Price must be positive"⟩ ∈ (createProduct db input).1.errors ∧
      (createProduct db input).2 = db) ∧
    (0 < input.price → (∀ n, input.stock = some n → 0 ≤ n) →
      (createProduct db input).1.errors = [] ∧
      (createProduct db input).1.product.isSome = true) := by
  constructor
  · intro hle
    refine ⟨?_, ?_, ?_⟩ <;> cases hstk : input.stock <;>
      simp [createProduct, hle, hstk]
  · intro hpos hstock
    have h1 : ¬ input.price ≤ 0 := not_le.mpr hpos
    cases hstk : input.stock
    · simp [createProduct, h1, hstk]
    · rename_i n
      simp [createProduct, h1, hstk, not_lt.mpr (hstock n hstk)]

/-- Witness for C2 at a concrete run: creating `bob@example.com` twice from the empty
store succeeds once and then fails with the email-uniqueness error. -/
theorem createCustomer_duplicate_email_witness :
    validate_email_unique DB.empty "bob@example.com" = true ∧
    (∃ c : Customer,
      (createCustomer DB.empty ⟨"Bob", "bob@example.com", some "+123-456"⟩).1.customer =
        some c ∧
      (createCustomer DB.empty ⟨"Bob", "bob@example.com", some "+123-456"⟩).1.message =
        "Customer \x27" ++ "Bob" ++ "\x27 created successfully" ∧
      (createCustomer DB.empty ⟨"Bob", "bob@example.com", some "+123-456"⟩).1.errors = [] ∧
      c.email = "bob@example.com" ∧
      (createCustomer DB.empty ⟨"Bob", "bob@example.com", some "+123-456"⟩).2.customers =
        DB.empty.customers ++ [c] ∧
      (createCustomer
        (createCustomer DB.empty ⟨"Bob", "bob@example.com", some "+123-456"⟩).2
        ⟨"Bob", "bob@example.com", some "+123-456"⟩).1.customer = none ∧
      (createCustomer
        (createCustomer DB.empty ⟨"Bob", "bob@example.com", some "+123-456"⟩).2
        ⟨"Bob", "bob@example.com", some "+123-456"⟩).1.errors =
        [⟨"email", "Email already exists"⟩] ∧
      (createCustomer
        (createCustomer DB.empty ⟨"Bob", "bob@example.com", some "+123-456"⟩).2
        ⟨"Bob", "bob@example.com", some "+123-456"⟩).2 =
        (createCustomer DB.empty ⟨"Bob", "bob@example.com", some "+123-456"⟩).2) :=
  ⟨by decide,
    createCustomer_duplicate_email DB.empty ⟨"Bob", "bob@example.com", some "+123-456"⟩
      (by decide) (by decide)⟩

/-- Witness for C4: price `-1.00` is rejected with the `price` error and no write;
price `5.00` with stock 3 passes with no validation error. -/
theorem createProduct_price_validation_witness :
    ((createProduct DB.empty ⟨"Bad", -100, none⟩).1.product = none ∧
      ⟨"price", "Price must be positive"⟩ ∈
        (createProduct DB.empty ⟨"Bad", -100, none⟩).1.errors ∧
      (createProduct DB.empty ⟨"Bad", -100, none⟩).2 = DB.empty) ∧
    ((createProduct DB.empty ⟨"Good", 500, some 3⟩).1.errors = [] ∧
      (createProduct DB.empty ⟨"Good", 500, some 3⟩).1.product.isSome = true) :=
  ⟨(createProduct_price_validation DB.empty ⟨"Bad", -100, none⟩).1 (by decide),
    (createProduct_price_validation DB.empty ⟨"Good", 500, some 3⟩).2 (by decide)
      (fun n h => by simp at h; omega)⟩

/-- Membership in a conditionally applied filter stage. -/
theorem mem_guard_filter {α : Type} (c : Bool) (q : α → Bool) (l : List α) (x : α) :
    x ∈ (if c then l.filter q else l) ↔ x ∈ l ∧ (!c || q x) = true := by
  cases c <;> simp [List.mem_filter]

/-- C7: the low-stock filter (flag submitted as true) returns exactly the products
with stock strictly below 10 — a product with stock 10 is never returned — both
through `ProductFilter.filter_low_stock` and through the products resolver. -/
theorem low_stock_filter_strict (ps : List Product) (p : Product) :
    (p ∈ filter_low_stock ps true ↔ p ∈ ps ∧ p.stock < 10) ∧
    (p.stock = 10 → p ∉ filter_low_stock ps true) ∧
    (p ∈ resolve_products ps (some ⟨none, none, none, none, none, some true⟩) ↔
      p ∈ ps ∧ p.stock < 10) := by
  refine ⟨?_, ?_, ?_⟩
  · simp [filter_low_stock, List.mem_filter]
  · intro h10
    simp [filter_low_stock, List.mem_filter, h10]
  · simp [resolve_products, truthyStr, truthyInt, truthyBool, List.mem_filter]

/-- Witness for C7: with stocks 9 and 10 the filter keeps only the stock-9 product. -/
theorem low_stock_filter_strict_witness :
    ((⟨2, "Bolt", 100, 10⟩ : Product) ∉
      filter_low_stock [⟨1, "Nut", 100, 9⟩, ⟨2, "Bolt", 100, 10⟩] true) ∧
    ((⟨1, "Nut", 100, 9⟩ : Product) ∈
      filter_low_stock [⟨1, "Nut", 100, 9⟩, ⟨2, "Bolt", 100, 10⟩] true) :=
  ⟨(low_stock_filter_strict [⟨1, "Nut", 100, 9⟩, ⟨2, "Bolt", 100, 10⟩]
      ⟨2, "Bolt", 100, 10⟩).2.1 (by decide),
    by decide⟩

/-- C8 counterexample: the empty string does not match `^\+?[\d\-\(\)\s]+$` (the class
must occur at least once), yet `validate_phone` accepts it via its falsy early return. -/
theorem validate_phone_empty_counterexample :
    validate_phone "" = true ∧ matchesPhoneRegex "" = false := by decide

/-- C8 amended: for every non-empty input, `validate_phone` passes exactly on the
strings matching `^\+?[\d\-\(\)\s]+$`; the empty input passes without matching. -/
theorem validate_phone_iff_regex (s : String) :
    (s ≠ "" → (validate_phone s = true ↔ matchesPhoneRegex s = true)) ∧
    validate_phone "" = true := by
  refine ⟨?_, by decide⟩
  intro h
  have hie : s.isEmpty = false := by
    rw [Bool.eq_false_iff]
    simp [String.isEmpty_iff, h]
  simp [validate_phone, hie]

/-- Witness for C8 amended claim: `+123-456` is non-empty and validation agrees with
the pattern there; the empty string still passes. -/
theorem validate_phone_iff_regex_witness :
    ("+123-456" ≠ "" ∧
      (validate_phone "+123-456" = true ↔ matchesPhoneRegex "+123-456" = true)) ∧
    validate_phone "" = true :=
  ⟨⟨by decide, (validate_phone_iff_regex "+123-456").1 (by decide)⟩,
    (validate_phone_iff_regex "").2⟩

/-- C6 counterexample: with the single present criterion `stock_lte = 0` the resolver
returns a stock-5 product unchanged (a falsy value is skipped), so the result is not
the set of records satisfying all present criteria. -/
theorem resolve_products_conjunction_counterexample :
    resolve_products [⟨1, "Widget", 500, 5⟩] (some ⟨none, none, none, none, some 0, none⟩) ≠
      [⟨1, "Widget", 500, 5⟩].filter
        (satisfiesAllCriteria ⟨none, none, none, none, some 0, none⟩) := by
  decide

/-- C6 amended: criteria are independently optional and the result set is exactly the
records satisfying the conjunction of the criteria that are present with truthy
values, for the product, customer, and order resolvers alike; the membership
characterization is order-independent. -/
theorem resolve_filters_truthy_conjunction :
    (∀ (ps : List Product) (f : ProductFilterInput) (p : Product),
      p ∈ resolve_products ps (some f) ↔ p ∈ ps ∧ appliesTruthyProduct f p = true) ∧
    (∀ ps : List Product, resolve_products ps none = ps) ∧
    (∀ (cs : List CustomerRow) (f : CustomerFilterInput) (c : CustomerRow),
      c ∈ resolve_customers cs (some f) ↔ c ∈ cs ∧ appliesTruthyCustomer f c = true) ∧
    (∀ cs : List CustomerRow, resolve_customers cs none = cs) ∧
    (∀ (us : List Customer) (os : List Order) (f : OrderFilterInput) (o : Order),
      o ∈ resolve_filtered_orders us os (some f) ↔
        o ∈ os ∧ appliesTruthyOrder us f o = true) ∧
    (∀ (us : List Customer) (os : List Order), resolve_filtered_orders us os none = os) := by
  refine ⟨?_, fun ps => rfl, ?_, fun cs => rfl, ?_, fun us os => rfl⟩
  · intro ps f p
    simp only [resolve_products, mem_guard_filter]
    simp only [appliesTruthyProduct, Bool.and_eq_true]
    exact ⟨fun h => ⟨h.1.1.1.1.1.1,
        ⟨⟨⟨⟨⟨h.1.1.1.1.1.2, h.1.1.1.1.2⟩, h.1.1.1.2⟩, h.1.1.2⟩, h.1.2⟩, h.2⟩⟩,
      fun h => ⟨⟨⟨⟨⟨⟨h.1, h.2.1.1.1.1.1⟩, h.2.1.1.1.1.2⟩, h.2.1.1.1.2⟩, h.2.1.1.2⟩,
        h.2.1.2⟩, h.2.2⟩⟩
  · intro cs f c
    simp only [resolve_customers, mem_guard_filter]
    simp only [appliesTruthyCustomer, Bool.and_eq_true]
    exact ⟨fun h => ⟨h.1.1.1.1.1,
        ⟨⟨⟨⟨h.1.1.1.1.2, h.1.1.1.2⟩, h.1.1.2⟩, h.1.2⟩, h.2⟩⟩,
      fun h => ⟨⟨⟨⟨⟨h.1, h.2.1.1.1.1⟩, h.2.1.1.1.2⟩, h.2.1.1.2⟩, h.2.1.2⟩, h.2.2⟩⟩
  · intro us os f o
    simp only [resolve_filtered_orders, mem_guard_filter]
    simp only [appliesTruthyOrder, Bool.and_eq_true]
    exact ⟨fun h => ⟨h.1.1.1.1.1,
        ⟨⟨⟨⟨h.1.1.1.1.2, h.1.1.1.2⟩, h.1.1.2⟩, h.1.2⟩, h.2⟩⟩,
      fun h => ⟨⟨⟨⟨⟨h.1, h.2.1.1.1.1⟩, h.2.1.1.1.2⟩, h.2.1.1.2⟩, h.2.1.2⟩, h.2.2⟩⟩

/-- C10: a criterion submitted with a falsy value (zero threshold, false flag, empty
string) constrains nothing — the resolvers return the same rows as with no filter. -/
theorem falsy_criteria_no_constraint (ps : List Product) (cs : List CustomerRow)
    (us : List Customer) (os : List Order) :
    resolve_products ps (some ⟨none, some 0, none, none, none, none⟩) = ps ∧
    resolve_products ps (some ⟨none, none, some 0, none, none, none⟩) = ps ∧
    resolve_products ps (some ⟨none, none, none, some 0, none, none⟩) = ps ∧
    resolve_products ps (some ⟨none, none, none, none, some 0, none⟩) = ps ∧
    resolve_products ps (some ⟨none, none, none, none, none, some false⟩) = ps ∧
    resolve_products ps (some ⟨some "", some 0, some 0, some 0, some 0, some false⟩) =
      resolve_products ps none ∧
    resolve_customers cs (some ⟨some "", some "", none, none, some ""⟩) =
      resolve_customers cs none ∧
    resolve_filtered_orders us os
      (some ⟨some 0, some 0, none, none, some "", none, some 0⟩) =
      resolve_filtered_orders us os none := by
  have hie : ("" : String).isEmpty = true := by decide
  refine ⟨?_, ?_, ?_, ?_, ?_, ?_, ?_, ?_⟩ <;>
    simp [resolve_products, resolve_customers, resolve_filtered_orders,
      truthyStr, truthyInt, truthyBool, hie]

/-- The database state after the bulk loop has processed the first `k` rows. -/
def bulkRowState (db : DB) (inputs : List CustomerInput) (k : Nat) : DB :=
  (bulkCreateCustomersAux db 0 (inputs.take k)).2.2

/-- Every customer the bulk loop returns has been appended to the store, in order:
rows that fail never roll back or block the rows that succeeded. -/
theorem bulkAux_customers_eq (inputs : List CustomerInput) (db : DB) (idx : Nat) :
    (bulkCreateCustomersAux db idx inputs).2.2.customers =
      db.customers ++ (bulkCreateCustomersAux db idx inputs).1 := by
  induction inputs generalizing db idx with
  | nil => simp [bulkCreateCustomersAux]
  | cons input rest ih =>
      cases h : (customerValidationErrors db input).isEmpty with
      | true =>
          simp only [bulkCreateCustomersAux, h, if_true]
          rw [ih]
          simp [customerCreateRow]
      | false =>
          simp only [bulkCreateCustomersAux, h, Bool.false_eq_true, if_false]
          exact ih db (idx + 1)

/-- Each bulk row yields exactly one outcome: a created customer or an indexed error. -/
theorem bulkAux_length (inputs : List CustomerInput) (db : DB) (idx : Nat) :
    (bulkCreateCustomersAux db idx inputs).1.length +
      (bulkCreateCustomersAux db idx inputs).2.1.length = inputs.length := by
  induction inputs generalizing db idx with
  | nil => simp [bulkCreateCustomersAux]
  | cons input rest ih =>
      cases h : (customerValidationErrors db input).isEmpty with
      | true =>
          simp only [bulkCreateCustomersAux, h, if_true, List.length_cons]
          have := ih (customerCreateRow db input).2 (idx + 1)
          omega
      | false =>
          simp only [bulkCreateCustomersAux, h, Bool.false_eq_true, if_false,
            List.length_cons]
          have := ih db (idx + 1)
          omega

/-- A row whose validation fails against the state left by the previous rows is
reported with its index and its field errors. -/
theorem bulkAux_error_of_fail (inputs : List CustomerInput) (db : DB) (idx k : Nat)
    (hk : k < inputs.length)
    (hfail : (customerValidationErrors
      (bulkCreateCustomersAux db idx (inputs.take k)).2.2 inputs[k]).isEmpty = false) :
    (⟨idx + k, customerValidationErrors
      (bulkCreateCustomersAux db idx (inputs.take k)).2.2 inputs[k]⟩ :
        CustomerValidationError) ∈ (bulkCreateCustomersAux db idx inputs).2.1 := by
  induction inputs generalizing db idx k with
  | nil => simp at hk
  | cons input rest ih =>
      cases k with
      | zero =>
          simp only [List.take_zero, bulkCreateCustomersAux,
            List.getElem_cons_zero] at hfail ⊢
          simp only [hfail, Bool.false_eq_true, if_false, Nat.add_zero]
          exact List.mem_cons_self _ _
      | succ k' =>
          simp only [List.take_succ_cons, List.getElem_cons_succ] at hfail ⊢
          cases h : (customerValidationErrors db input).isEmpty with
          | true =>
              simp only [bulkCreateCustomersAux, h, if_true] at hfail ⊢
              have heq : idx + (k' + 1) = (idx + 1) + k' := by omega
              rw [heq]
              exact ih (customerCreateRow db input).2 (idx + 1) k'
                (Nat.lt_of_succ_lt_succ hk) hfail
          | false =>
              simp only [bulkCreateCustomersAux, h, Bool.false_eq_true, if_false]
                at hfail ⊢
              have heq : idx + (k' + 1) = (idx + 1) + k' := by omega
              rw [heq]
              exact List.mem_cons_of_mem _
                (ih db (idx + 1) k' (Nat.lt_of_succ_lt_succ hk) hfail)

/-- A row whose validation passes against the state left by the previous rows is
created exactly as `Customer.objects.create` would store it, and returned. -/
theorem bulkAux_created_of_ok (inputs : List CustomerInput) (db : DB) (idx k : Nat)
    (hk : k < inputs.length)
    (hok : (customerValidationErrors
      (bulkCreateCustomersAux db idx (inputs.take k)).2.2 inputs[k]).isEmpty = true) :
    (customerCreateRow (bulkCreateCustomersAux db idx (inputs.take k)).2.2 inputs[k]).1 ∈
      (bulkCreateCustomersAux db idx inputs).1 := by
  induction inputs generalizing db idx k with
  | nil => simp at hk
  | cons input rest ih =>
      cases k with
      | zero =>
          simp only [List.take_zero, bulkCreateCustomersAux,
            List.getElem_cons_zero] at hok ⊢
          simp only [hok, if_true]
          exact List.mem_cons_self _ _
      | succ k' =>
          simp only [List.take_succ_cons, List.getElem_cons_succ] at hok ⊢
          cases h : (customerValidationErrors db input).isEmpty with
          | true =>
              simp only [bulkCreateCustomersAux, h, if_true] at hok ⊢
              exact List.mem_cons_of_mem _
                (ih (customerCreateRow db input).2 (idx + 1) k'
                  (Nat.lt_of_succ_lt_succ hk) hok)
          | false =>
              simp only [bulkCreateCustomersAux, h, Bool.false_eq_true, if_false]
                at hok ⊢
              exact ih db (idx + 1) k' (Nat.lt_of_succ_lt_succ hk) hok

/-- C3: in a bulk batch, every row that validates against the evolving state is
created, committed and returned; every row that fails is skipped and reported as an
indexed `CustomerValidationError`; failing rows never prevent the other rows from
being committed (the final store is the initial one plus exactly the returned rows). -/
theorem bulkCreateCustomers_row_outcomes (db : DB) (inputs : List CustomerInput) :
    ((bulkCreateCustomers db inputs).2.customers =
      db.customers ++ (bulkCreateCustomers db inputs).1.customers) ∧
    ((bulkCreateCustomers db inputs).1.customers.length +
      (bulkCreateCustomers db inputs).1.errors.length = inputs.length) ∧
    (∀ k (hk : k < inputs.length),
      (customerValidationErrors (bulkRowState db inputs k) inputs[k]).isEmpty = false →
      (⟨k, customerValidationErrors (bulkRowState db inputs k) inputs[k]⟩ :
        CustomerValidationError) ∈ (bulkCreateCustomers db inputs).1.errors) ∧
    (∀ k (hk : k < inputs.length),
      (customerValidationErrors (bulkRowState db inputs k) inputs[k]).isEmpty = true →
      (customerCreateRow (bulkRowState db inputs k) inputs[k]).1 ∈
        (bulkCreateCustomers db inputs).1.customers ∧
      (customerCreateRow (bulkRowState db inputs k) inputs[k]).1.name = inputs[k].name ∧
      (customerCreateRow (bulkRowState db inputs k) inputs[k]).1.email =
        inputs[k].email) := by
  refine ⟨?_, ?_, ?_, ?_⟩
  · exact bulkAux_customers_eq inputs db 0
  · exact bulkAux_length inputs db 0
  · intro k hk hfail
    have := bulkAux_error_of_fail inputs db 0 k hk hfail
    simpa using this
  · intro k hk hok
    refine ⟨bulkAux_created_of_ok inputs db 0 k hk hok, ?_, ?_⟩ <;>
      simp [customerCreateRow]

/-- Witness for C3: a batch of three rows whose middle row duplicates an existing
email creates and commits rows 0 and 2, and reports row 1 as an indexed error. -/
theorem bulkCreateCustomers_row_outcomes_witness :
    ((bulkCreateCustomers (DB.mk [⟨1, "Carol", "carol@example.com", ""⟩] [] [] 2 1 1) [⟨"Ann", "ann@example.com", none⟩, ⟨"Dup", "carol@example.com", none⟩, ⟨"Ben", "ben@example.com", none⟩]).2.customers =
      (DB.mk [⟨1, "Carol", "carol@example.com", ""⟩] [] [] 2 1 1).customers ++ (bulkCreateCustomers (DB.mk [⟨1, "Carol", "carol@example.com", ""⟩] [] [] 2 1 1) [⟨"Ann", "ann@example.com", none⟩, ⟨"Dup", "carol@example.com", none⟩, ⟨"Ben", "ben@example.com", none⟩]).1.customers) ∧
    (customerValidationErrors (bulkRowState (DB.mk [⟨1, "Carol", "carol@example.com", ""⟩] [] [] 2 1 1) [⟨"Ann", "ann@example.com", none⟩, ⟨"Dup", "carol@example.com", none⟩, ⟨"Ben", "ben@example.com", none⟩] 1)
      ([⟨"Ann", "ann@example.com", none⟩, ⟨"Dup", "carol@example.com", none⟩, ⟨"Ben", "ben@example.com", none⟩][1])).isEmpty = false ∧
    (⟨1, customerValidationErrors (bulkRowState (DB.mk [⟨1, "Carol", "carol@example.com", ""⟩] [] [] 2 1 1) [⟨"Ann", "ann@example.com", none⟩, ⟨"Dup", "carol@example.com", none⟩, ⟨"Ben", "ben@example.com", none⟩] 1)
      ([⟨"Ann", "ann@example.com", none⟩, ⟨"Dup", "carol@example.com", none⟩, ⟨"Ben", "ben@example.com", none⟩][1])⟩ : CustomerValidationError) ∈
      (bulkCreateCustomers (DB.mk [⟨1, "Carol", "carol@example.com", ""⟩] [] [] 2 1 1) [⟨"Ann", "ann@example.com", none⟩, ⟨"Dup", "carol@example.com", none⟩, ⟨"Ben", "ben@example.com", none⟩]).1.errors ∧
    (customerCreateRow (bulkRowState (DB.mk [⟨1, "Carol", "carol@example.com", ""⟩] [] [] 2 1 1) [⟨"Ann", "ann@example.com", none⟩, ⟨"Dup", "carol@example.com", none⟩, ⟨"Ben", "ben@example.com", none⟩] 0)
      ([⟨"Ann", "ann@example.com", none⟩, ⟨"Dup", "carol@example.com", none⟩, ⟨"Ben", "ben@example.com", none⟩][0])).1 ∈ (bulkCreateCustomers (DB.mk [⟨1, "Carol", "carol@example.com", ""⟩] [] [] 2 1 1) [⟨"Ann", "ann@example.com", none⟩, ⟨"Dup", "carol@example.com", none⟩, ⟨"Ben", "ben@example.com", none⟩]).1.customers ∧
    (customerCreateRow (bulkRowState (DB.mk [⟨1, "Carol", "carol@example.com", ""⟩] [] [] 2 1 1) [⟨"Ann", "ann@example.com", none⟩, ⟨"Dup", "carol@example.com", none⟩, ⟨"Ben", "ben@example.com", none⟩] 2)
      ([⟨"Ann", "ann@example.com", none⟩, ⟨"Dup", "carol@example.com", none⟩, ⟨"Ben", "ben@example.com", none⟩][2])).1 ∈ (bulkCreateCustomers (DB.mk [⟨1, "Carol", "carol@example.com", ""⟩] [] [] 2 1 1) [⟨"Ann", "ann@example.com", none⟩, ⟨"Dup", "carol@example.com", none⟩, ⟨"Ben", "ben@example.com", none⟩]).1.customers ∧
    (bulkCreateCustomers (DB.mk [⟨1, "Carol", "carol@example.com", ""⟩] [] [] 2 1 1) [⟨"Ann", "ann@example.com", none⟩, ⟨"Dup", "carol@example.com", none⟩, ⟨"Ben", "ben@example.com", none⟩]).1.customers.length = 2 ∧
    (bulkCreateCustomers (DB.mk [⟨1, "Carol", "carol@example.com", ""⟩] [] [] 2 1 1) [⟨"Ann", "ann@example.com", none⟩, ⟨"Dup", "carol@example.com", none⟩, ⟨"Ben", "ben@example.com", none⟩]).1.errors.length = 1 :=
  ⟨(bulkCreateCustomers_row_outcomes (DB.mk [⟨1, "Carol", "carol@example.com", ""⟩] [] [] 2 1 1) [⟨"Ann", "ann@example.com", none⟩, ⟨"Dup", "carol@example.com", none⟩, ⟨"Ben", "ben@example.com", none⟩]).1,
    by decide,
    (bulkCreateCustomers_row_outcomes (DB.mk [⟨1, "Carol", "carol@example.com", ""⟩] [] [] 2 1 1) [⟨"Ann", "ann@example.com", none⟩, ⟨"Dup", "carol@example.com", none⟩, ⟨"Ben", "ben@example.com", none⟩]).2.2.1 1 (by decide) (by decide),
    ((bulkCreateCustomers_row_outcomes (DB.mk [⟨1, "Carol", "carol@example.com", ""⟩] [] [] 2 1 1) [⟨"Ann", "ann@example.com", none⟩, ⟨"Dup", "carol@example.com", none⟩, ⟨"Ben", "ben@example.com", none⟩]).2.2.2 0 (by decide) (by decide)).1,
    ((bulkCreateCustomers_row_outcomes (DB.mk [⟨1, "Carol", "carol@example.com", ""⟩] [] [] 2 1 1) [⟨"Ann", "ann@example.com", none⟩, ⟨"Dup", "carol@example.com", none⟩, ⟨"Ben", "ben@example.com", none⟩]).2.2.2 2 (by decide) (by decide)).1,
    by decide,
    by decide⟩

end CRM
